import Mathlib

set_option autoImplicit false

namespace Envfmt

/-
Shallow embedding of augustuswm/envfmt.

Strings are modelled as Lean strings, i.e. sequences of characters; Rust
byte indices coincide with character indices on the ASCII inputs that the
claims are about.  Rust char::to_uppercase is modelled per character by
Char.toUpper.  Remote services (the SSM parameter directory and the STS
federation service) are modelled as explicit function or queue arguments,
and recursion that Rust leaves unbounded is modelled with an explicit fuel
argument whose exhaustion value none marks divergence.
-/

/-! ### Key normalization, src/params.rs lines 99-101 -/

/-- Index of the last occurrence of the slash character in a character
sequence, counted from the front: models Rust str::rfind applied to the
slash pattern. -/
def rfindSlash : List Char → Option Nat
  | [] => none
  | c :: rest =>
    match rfindSlash rest with
    | some i => some (i + 1)
    | none => if c = '/' then some 0 else none

/-- Models to_env_name from src/params.rs: take the substring starting one
past the rfind-or-zero index and upper-case it.  List.drop is total, so this
definition gives the value of the Rust expression wherever the Rust slice is
in bounds; the bounds check itself is modelled by to_env_name_slice below. -/
def to_env_name (name : String) : String :=
  ⟨(name.data.drop ((rfindSlash name.data).getD 0 + 1)).map Char.toUpper⟩

/-- Models the same expression together with the bounds check of the Rust
slice name[i..]: the result none models the panic raised when the start
index exceeds the length of the string. -/
def to_env_name_slice (name : String) : Option String :=
  if (rfindSlash name.data).getD 0 + 1 ≤ name.data.length then
    some ⟨(name.data.drop ((rfindSlash name.data).getD 0 + 1)).map Char.toUpper⟩
  else
    none

/-! ### Path normalization, src/params.rs lines 80-85 -/

/-- Models normalize_path from src/params.rs: match on the first character;
when it is a slash the path is returned unchanged, otherwise a slash is
prepended. -/
def normalize_path (path : String) : String :=
  match path.data.head? with
  | some '/' => path
  | _ => "/" ++ path

/-- Decidable test that a string begins with the slash character. -/
def starts_with_slash (s : String) : Bool :=
  match s.data.head? with
  | some '/' => true
  | _ => false

/-! ### Param and ParamBag, src/params.rs lines 40-77 -/

structure Param where
  key : String
  value : String
deriving DecidableEq

/-- The accumulator of one run.  The field pfx models the Rust field that
holds the path prefix, params the ordered vector of accumulated parameters,
and next the optional continuation cursor. -/
structure ParamBag where
  pfx : String
  params : List Param
  next : Option String
deriving DecidableEq

/-- Models ParamBag::new, src/params.rs lines 54-63. -/
def ParamBag.new (path : String) : ParamBag :=
  ⟨normalize_path path, [], none⟩

/-- Models ParamBag::from_dotenv, src/params.rs lines 65-77.  The dotenv
file is modelled by the list of parse results its iterator yields; items
carrying an error are filtered out and the supplied prefix is stored
verbatim, without normalization. -/
def ParamBag.from_dotenv (items : List (Except String (String × String)))
    (pfx : String) : ParamBag :=
  ⟨pfx,
   items.filterMap fun i =>
     match i with
     | Except.ok kv => some ⟨kv.1, kv.2⟩
     | Except.error _ => none,
   none⟩

/-! ### Profiles and the chain resolver, src/mfa.rs lines 35-108 -/

/-- A named set of key and value configuration entries, as loaded from the
local profile store. -/
structure Profile where
  fields : List (String × String)
deriving DecidableEq

/-- Models Profile::get: first value stored under the given field name. -/
def Profile.get (p : Profile) (field : String) : Option String :=
  p.fields.lookup field

/-- The full set of loaded profiles, a mapping from profile name to
profile. -/
structure ProfileSet where
  profiles : List (String × Profile)
deriving DecidableEq

/-- Models ProfileSet::get_profile. -/
def ProfileSet.get_profile (s : ProfileSet) (name : String) : Option Profile :=
  s.profiles.lookup name

/-- Models get_source_profile, src/mfa.rs lines 86-94.  The Rust function
recurses without any bound; the fuel argument makes the recursion depth
explicit, and the outer none records that the given number of steps did not
suffice, so a result of none for every fuel value means the Rust call never
returns. -/
def get_source_profile (set : ProfileSet) : Nat → String → Option (Option Profile)
  | 0, _ => none
  | fuel + 1, name =>
    match set.get_profile name with
    | none => some none
    | some p =>
      match p.get "source_profile" with
      | some source => get_source_profile set fuel source
      | none => some (some p)

/-- Models extract_field, src/mfa.rs lines 96-107: first profile in the
given order that defines the field wins. -/
def extract_field (field : String) : List Profile → Option String
  | [] => none
  | p :: rest =>
    match p.get field with
    | some v => some v
    | none => extract_field field rest

structure AssumeRoleRequest where
  role : String
  key : String
  secret : String
  mfa_serial : String
deriving DecidableEq

/-- Models AssumeRoleWithMFATokenProviderRequest::from_profile_set,
src/mfa.rs lines 57-84.  The outer none again records divergence of the
unbounded source-profile recursion within the given fuel. -/
def from_profile_set (fuel : Nat) (profile_name : String) (set : ProfileSet) :
    Option (Except String AssumeRoleRequest) :=
  match get_source_profile set fuel profile_name with
  | none => none
  | some srcOpt =>
    match set.get_profile profile_name, srcOpt with
    | some p, some source =>
      match p.get "role_arn" with
      | none => some (Except.error "Failed to find a role to assume in selected profile")
      | some role =>
        match extract_field "aws_access_key_id" [p, source] with
        | none => some (Except.error "Failed to find an access key in source profile for selected profile")
        | some key =>
          match extract_field "aws_secret_access_key" [p, source] with
          | none => some (Except.error "Failed to find a secret key in source profile for selected profile")
          | some secret =>
            match p.get "mfa_serial" with
            | none => some (Except.error "Failed to find a mfa serial to use in selected profile")
            | some serial => some (Except.ok ⟨role, key, secret, serial⟩)
    | _, _ => some (Except.error "Failed to find a profile or source")

/-! ### Credential extraction from the federation response,
src/mfa.rs lines 195-208 -/

/-- The credential block embedded in an assume-role response; every field
of the vendor type is optional. -/
structure StsCredentials where
  access_key_id : Option String
  secret_access_key : Option String
  session_token : Option String
deriving DecidableEq

/-- The credentials object the provider yields. -/
structure Credentials where
  key : String
  secret : String
  token : Option String
  provider_name : String
deriving DecidableEq

/-- Models the tail of provide_credentials, src/mfa.rs lines 195-208: map
over the optional credential block, reading the access key and the secret
key with unwrap, then ok_or the malformed-response error.  The outer none
models the panic of unwrap when the block is present but the field is
absent; the access key is unwrapped first, as in the source. -/
def credentials_from_response (resp : Option StsCredentials) :
    Option (Except String Credentials) :=
  match resp with
  | none =>
    some (Except.error "Successfully assume role, but not credentials were returned")
  | some c =>
    match c.access_key_id with
    | none => none
    | some akid =>
      match c.secret_access_key with
      | none => none
      | some sk =>
        some (Except.ok ⟨akid, sk, c.session_token, "AssumeRoleWithMFAToken"⟩)

/-! ### Paginated fetch, src/params.rs lines 7-38 and 103-123 -/

/-- One response of the remote listing operation: an optional vector of
parameters whose name and value fields are each optional, and an optional
continuation token. -/
structure Page where
  parameters : Option (List (Option String × Option String))
  next_token : Option String

/-- The remote parameter directory, a function from the request path and
the optional continuation token of the request to the response. -/
def Net : Type := String → Option String → Except String Page

/-- The parameters of one page that carry both a name and a value, in page
order, with names normalized; pairs missing either field are dropped. -/
def page_params (ps : List (Option String × Option String)) : List Param :=
  ps.filterMap fun nv =>
    match nv with
    | (some name, some value) => some ⟨to_env_name name, value⟩
    | _ => none

/-- How one response updates the bag, src/params.rs lines 23-36: well
formed pairs are appended in order and the cursor is replaced by the token
of the response. -/
def apply_page (bag : ParamBag) (resp : Page) : ParamBag :=
  ⟨bag.pfx,
   match resp.parameters with
   | none => bag.params
   | some ps => bag.params ++ page_params ps,
   resp.next_token⟩

/-- Models ReadParamClient::get_params for the SSM client, src/params.rs
lines 14-38: one remote call at the prefix and current cursor of the bag;
a transport error is propagated. -/
def get_params (net : Net) (bag : ParamBag) : Except String ParamBag :=
  match net bag.pfx bag.next with
  | Except.error e => Except.error e
  | Except.ok resp => Except.ok (apply_page bag resp)

/-- Models the loop of get_all_params_for_path, src/params.rs lines
112-120, with explicit fuel: process the bag, stop when the cursor is
absent, loop otherwise; an error aborts immediately.  none is returned
only on fuel exhaustion. -/
def fetch_loop (net : Net) : Nat → ParamBag → Option (Except String ParamBag)
  | 0, _ => none
  | fuel + 1, bag =>
    match get_params net bag with
    | Except.error e => some (Except.error e)
    | Except.ok bag2 =>
      match bag2.next with
      | none => some (Except.ok bag2)
      | some _ => fetch_loop net fuel bag2

/-- Models get_all_params_for_path, src/params.rs lines 104-123. -/
def get_all_params_for_path (net : Net) (fuel : Nat) (path : String) :
    Option (Except String ParamBag) :=
  fetch_loop net fuel (ParamBag.new path)

/-- A client that serves a fixed queue of page responses, one per call, in
order: this models a stateful ReadParamClient such as the mock client in
the tests of src/params.rs, and makes the number and order of remote calls
observable.  The unconsumed queue is returned next to the result. -/
def seq_get_params (resps : List (Except String Page)) (bag : ParamBag) :
    Except String ParamBag × List (Except String Page) :=
  match resps with
  | [] => (Except.error "no response", [])
  | Except.error e :: rest => (Except.error e, rest)
  | Except.ok resp :: rest => (Except.ok (apply_page bag resp), rest)

/-- The same fetch loop run against a queue-serving client; the queue left
unconsumed when the loop stops is part of the result, so a response that is
never requested stays in it. -/
def fetch_loop_seq : Nat → List (Except String Page) → ParamBag →
    Option (Except String ParamBag × List (Except String Page))
  | 0, _, _ => none
  | fuel + 1, resps, bag =>
    match seq_get_params resps bag with
    | (Except.error e, rest) => some (Except.error e, rest)
    | (Except.ok bag2, rest) =>
      match bag2.next with
      | none => some (Except.ok bag2, rest)
      | some _ => fetch_loop_seq fuel rest bag2

/-- Models the read branch of main, src/main.rs lines 86-104: the fetched
bag is formatted and emitted only when the fetch succeeded; on an error
nothing is flushed to the formatter. -/
def read_output (result : Except String ParamBag) (fmt : ParamBag → String) :
    Option String :=
  match result with
  | Except.ok bag => some (fmt bag)
  | Except.error _ => none

/-! ### The throttled writer, src/writer/mod.rs lines 15-41 -/

/-- The remote put operation: path, value and the overwrite flag map to an
outcome. -/
def PutClient : Type := String → String → Bool → Except String Unit

/-- The remote path computed for one parameter: bag prefix, a slash and
the lower-cased key; lower-casing is modelled per character, matching the
model of upper-casing above. -/
def write_path (pfx : String) (p : Param) : String :=
  pfx ++ "/" ++ ⟨p.key.data.map Char.toLower⟩

/-- Models Writer::write, src/writer/mod.rs lines 15-41: iterate the
parameters in bag order and issue one put per parameter; each outcome,
success or failure, is reported keyed by the computed path, and iteration
continues regardless of the outcome.  The flat inter-item delay of the
source does not affect the reported outcomes and is not modelled. -/
def Writer.write (put : PutClient) (force : Bool) (pfx : String) :
    List Param → List (String × Except String Unit)
  | [] => []
  | p :: rest =>
    (write_path pfx p, put (write_path pfx p) p.value force) ::
      Writer.write put force pfx rest

/-! ### Concrete inputs used by individual claims -/

/-- A profile set whose source-profile references form a two-cycle. -/
def cyclic_set : ProfileSet :=
  ⟨[("a", ⟨[("source_profile", "b")]⟩),
    ("b", ⟨[("source_profile", "a")]⟩)]⟩

/-- A profile set whose chain points at a profile that is not present. -/
def missing_root_set : ProfileSet :=
  ⟨[("a", ⟨[("source_profile", "b")]⟩)]⟩

/-- A well-formed chain of length two: the child holds the role and the
MFA serial and delegates the keys to its parent. -/
def chain_set : ProfileSet :=
  ⟨[("child", ⟨[("source_profile", "parent"),
                ("role_arn", "arn:role"),
                ("mfa_serial", "arn:mfa")]⟩),
    ("parent", ⟨[("aws_access_key_id", "AKID"),
                 ("aws_secret_access_key", "SECRET")]⟩)]⟩

/-- A remote directory that serves two pages: the first carries a cursor,
the second does not. -/
def two_page_net : Net := fun _ cursor =>
  match cursor with
  | none =>
    Except.ok ⟨some [(some "/path/to/the/first_param", some "a"),
                     (some "/path/to/the/second_param", some "b")],
               some "second"⟩
  | some "second" =>
    Except.ok ⟨some [(some "/path/to/the/third", some "c"),
                     (some "/path/to/the/fourth", some "d")],
               none⟩
  | some _ => Except.error "unexpected cursor"

/-- A remote directory that always answers one page with no cursor. -/
def one_page_net : Net := fun _ _ =>
  Except.ok ⟨some [(some "k", some "v")], none⟩

/-- A put client that rejects exactly one path and accepts every other. -/
def put_reject_alpha : PutClient := fun path _ _ =>
  if path = "/pre/alpha" then Except.error "ParameterAlreadyExists"
  else Except.ok ()

/-! ### Helper lemmas -/

theorem data_slash_append (p : String) : ("/" ++ p).data = '/' :: p.data := by
  simp [String.data_append]

theorem normalize_path_eq (p : String) :
    normalize_path p = if starts_with_slash p then p else "/" ++ p := by
  unfold normalize_path starts_with_slash
  rcases hd : p.data.head? with _ | c
  · simp
  · by_cases hc : c = '/'
    · subst hc; simp
    · simp [hc]

theorem starts_with_slash_append (p : String) :
    starts_with_slash ("/" ++ p) = true := by
  unfold starts_with_slash
  rw [data_slash_append]
  rfl

theorem starts_with_slash_normalize (p : String) :
    starts_with_slash (normalize_path p) = true := by
  rw [normalize_path_eq]
  by_cases h : starts_with_slash p
  · rw [if_pos h]; exact h
  · rw [if_neg h]; exact starts_with_slash_append p

theorem rfindSlash_eq_none : ∀ cs : List Char, '/' ∉ cs → rfindSlash cs = none := by
  intro cs
  induction cs with
  | nil => intro _; rfl
  | cons c rest ih =>
    intro h
    have hc : ¬(c = '/') := by
      intro hc
      exact h (by rw [hc]; exact List.mem_cons_self '/' rest)
    have hrest : '/' ∉ rest := fun hr => h (List.mem_cons_of_mem c hr)
    unfold rfindSlash
    rw [ih hrest, if_neg hc]

theorem rfindSlash_append : ∀ (bef aft : List Char), '/' ∉ aft →
    rfindSlash (bef ++ '/' :: aft) = some bef.length := by
  intro bef aft haft
  induction bef with
  | nil =>
    show rfindSlash ('/' :: aft) = some 0
    unfold rfindSlash
    rw [rfindSlash_eq_none aft haft, if_pos rfl]
  | cons c rest ih =>
    show rfindSlash (c :: (rest ++ '/' :: aft)) = some (rest.length + 1)
    unfold rfindSlash
    rw [ih]

theorem drop_len_succ_append : ∀ (bef : List Char) (x : Char) (aft : List Char),
    (bef ++ x :: aft).drop (bef.length + 1) = aft := by
  intro bef
  induction bef with
  | nil => intro x aft; rfl
  | cons c rest ih => intro x aft; exact ih x aft

theorem rfindSlash_lt_length : ∀ (cs : List Char) (i : Nat),
    rfindSlash cs = some i → i < cs.length := by
  intro cs
  induction cs with
  | nil => intro i h; cases h
  | cons c rest ih =>
    intro i h
    unfold rfindSlash at h
    cases hr : rfindSlash rest with
    | some j =>
      rw [hr] at h
      cases h
      have := ih j hr
      simp only [List.length_cons]
      omega
    | none =>
      rw [hr] at h
      by_cases hc : c = '/'
      · rw [if_pos hc] at h
        cases h
        simp
      · rw [if_neg hc] at h
        cases h

/-! ### Claim C9: normalize_path behaviour and idempotence -/

/-- Claim C9: normalize_path prepends a slash when the path does not begin
with one and returns the path unchanged when it does, hence it is
idempotent; "path/to/x" maps to "/path/to/x" and "/path/to/x" is
unchanged. -/
theorem claim_C9 :
    (∀ p : String, starts_with_slash p = true → normalize_path p = p) ∧
    (∀ p : String, starts_with_slash p = false → normalize_path p = "/" ++ p) ∧
    (∀ p : String, normalize_path (normalize_path p) = normalize_path p) ∧
    normalize_path "path/to/x" = "/path/to/x" ∧
    normalize_path "/path/to/x" = "/path/to/x" := by
  have ht : ∀ p : String, starts_with_slash p = true → normalize_path p = p := by
    intro p h
    rw [normalize_path_eq, if_pos h]
  refine ⟨ht, ?_, ?_, rfl, rfl⟩
  · intro p h
    rw [normalize_path_eq, h]
    rfl
  · intro p
    exact ht (normalize_path p) (starts_with_slash_normalize p)

/-- Witness for claim C9 at concrete paths. -/
theorem claim_C9_witness :
    normalize_path "/x" = "/x" ∧ normalize_path "x" = "/" ++ "x" ∧
    normalize_path (normalize_path "x") = normalize_path "x" :=
  ⟨claim_C9.1 "/x" rfl, claim_C9.2.1 "x" rfl, claim_C9.2.2.1 "x"⟩

/-! ### Claim C2: to_env_name on names with and without a slash -/

/-- Counterexample to claim C2: the name abc contains no slash and is not
empty, yet to_env_name returns BC, not the whole name upper-cased, because
the rfind-or-zero index plus one drops the first character. -/
theorem claim_C2_counterexample :
    to_env_name "abc" = "BC" ∧ to_env_name "abc" ≠ "ABC" := by
  refine ⟨rfl, by decide⟩

/-- Claim C2 as amended: for a non-empty name with no slash, to_env_name
returns the name without its first character, upper-cased; for a name that
has a slash, it returns the substring after the last slash, upper-cased,
so to_env_name of "/path/to/the/param_key" is "PARAM_KEY". -/
theorem claim_C2 :
    (∀ name : String, name.data ≠ [] → '/' ∉ name.data →
      to_env_name name = ⟨name.data.tail.map Char.toUpper⟩) ∧
    (∀ bef aft : List Char, '/' ∉ aft →
      to_env_name ⟨bef ++ '/' :: aft⟩ = ⟨aft.map Char.toUpper⟩) ∧
    to_env_name "/path/to/the/param_key" = "PARAM_KEY" := by
  refine ⟨?_, ?_, rfl⟩
  · intro name _ hns
    unfold to_env_name
    rw [rfindSlash_eq_none name.data hns]
    simp [List.drop_one]
  · intro bef aft haft
    unfold to_env_name
    rw [show (String.mk (bef ++ '/' :: aft)).data = bef ++ '/' :: aft from rfl]
    rw [rfindSlash_append bef aft haft]
    show String.mk (((bef ++ '/' :: aft).drop (bef.length + 1)).map Char.toUpper) = _
    rw [drop_len_succ_append]

/-- Witness for claim C2 at concrete names. -/
theorem claim_C2_witness :
    to_env_name "param_key" =
      ⟨("param_key" : String).data.tail.map Char.toUpper⟩ ∧
    to_env_name ⟨['a'] ++ '/' :: ['b', 'c']⟩ = ⟨['b', 'c'].map Char.toUpper⟩ :=
  ⟨claim_C2.1 "param_key" (by decide) (by decide),
   claim_C2.2.1 ['a'] ['b', 'c'] (by decide)⟩

/-! ### Claim C10: totality of to_env_name -/

/-- Counterexample to claim C10: on the empty string the start index of the
Rust slice is one, which exceeds the length zero, so the slice panics; the
result none models that panic, so to_env_name is not total. -/
theorem claim_C10_counterexample : to_env_name_slice "" = none := rfl

/-- Claim C10 as amended: on every non-empty name the slice start index is
within bounds, so the Rust expression returns a value, the one computed by
the total model; only the empty string makes the slice panic. -/
theorem claim_C10 : ∀ name : String, name ≠ "" →
    to_env_name_slice name = some (to_env_name name) := by
  intro name hne
  have hdata : name.data ≠ [] := by
    intro h
    apply hne
    cases name with
    | mk l =>
      cases h
      rfl
  have hbound : (rfindSlash name.data).getD 0 + 1 ≤ name.data.length := by
    cases h : rfindSlash name.data with
    | none =>
      simpa using List.length_pos.mpr hdata
    | some i =>
      have := rfindSlash_lt_length name.data i h
      simpa using this
  unfold to_env_name_slice to_env_name
  rw [if_pos hbound]

/-- Witness for claim C10 at a concrete one-character name. -/
theorem claim_C10_witness : to_env_name_slice "a" = some (to_env_name "a") :=
  claim_C10 "a" (by decide)

/-! ### Claim C4: the bag prefix invariant -/

/-- Counterexample to claim C4: ParamBag.from_dotenv stores the supplied
prefix verbatim, so the write-mode constructor yields a bag whose prefix
does not begin with a slash. -/
theorem claim_C4_counterexample :
    starts_with_slash (ParamBag.from_dotenv [] "abc").pfx = false := rfl

/-- Claim C4 as amended: a bag built by ParamBag.new has a prefix that
begins with a slash and every page fetch leaves the prefix unchanged,
while a bag built by ParamBag.from_dotenv carries the caller-supplied
prefix verbatim, which need not begin with a slash. -/
theorem claim_C4 :
    (∀ path : String, starts_with_slash (ParamBag.new path).pfx = true) ∧
    (∀ (net : Net) (bag bag2 : ParamBag),
      get_params net bag = Except.ok bag2 → bag2.pfx = bag.pfx) ∧
    (∀ (items : List (Except String (String × String))) (pfx : String),
      (ParamBag.from_dotenv items pfx).pfx = pfx) := by
  refine ⟨?_, ?_, fun _ _ => rfl⟩
  · intro path
    exact starts_with_slash_normalize path
  · intro net bag bag2 h
    unfold get_params at h
    cases hnet : net bag.pfx bag.next with
    | error e => rw [hnet] at h; cases h
    | ok resp =>
      rw [hnet] at h
      cases h
      rfl

/-- Witness for claim C4 at concrete inputs. -/
theorem claim_C4_witness :
    starts_with_slash (ParamBag.new "x").pfx = true ∧
    (apply_page (ParamBag.new "x") ⟨none, none⟩).pfx = (ParamBag.new "x").pfx ∧
    (ParamBag.from_dotenv [] "p").pfx = "p" :=
  ⟨claim_C4.1 "x",
   claim_C4.2.1 (fun _ _ => Except.ok ⟨none, none⟩) (ParamBag.new "x")
     (apply_page (ParamBag.new "x") ⟨none, none⟩) rfl,
   claim_C4.2.2 [] "p"⟩

/-! ### Claim C8: the writer reports per item and never halts the batch -/

/-- Claim C8: Writer.write iterates the parameters in bag order, issues
each put at the path formed from the prefix, a slash and the lower-cased
key, reports every outcome independently keyed by that path, and a failed
item neither halts nor skips later items; concretely, a batch whose first
item is rejected still writes and reports the second. -/
theorem claim_C8 :
    (∀ (put : PutClient) (force : Bool) (pfx : String) (params : List Param),
      Writer.write put force pfx params =
        params.map fun p => (write_path pfx p, put (write_path pfx p) p.value force)) ∧
    Writer.write put_reject_alpha false "/pre" [⟨"ALPHA", "a"⟩, ⟨"BETA", "b"⟩] =
      [("/pre/alpha", Except.error "ParameterAlreadyExists"),
       ("/pre/beta", Except.ok ())] := by
  constructor
  · intro put force pfx params
    induction params with
    | nil => rfl
    | cons p rest ih => simp [Writer.write, ih]
  · rfl

/-! ### Claim C3: extraction of credentials from the federation response -/

/-- Counterexample to claim C3: when the credential block is present but
its access key field is absent, the code unwraps the field and panics,
modelled by none, instead of returning the malformed-response error that
the claim requires. -/
theorem claim_C3_counterexample :
    credentials_from_response (some ⟨none, some "sk", none⟩) = none ∧
    credentials_from_response (some ⟨none, some "sk", none⟩) ≠
      some (Except.error "Successfully assume role, but not credentials were returned") := by
  exact ⟨rfl, fun h => Option.noConfusion h⟩

/-- Claim C3 as amended: a response with no credential block at all yields
the malformed-federation-response error; a response whose block is present
but lacks the access key or the secret key makes the provider panic on
unwrap, modelled by none, rather than return an error; a block holding
both keys yields full credentials. -/
theorem claim_C3 :
    credentials_from_response none =
      some (Except.error "Successfully assume role, but not credentials were returned") ∧
    (∀ c : StsCredentials, c.access_key_id = none →
      credentials_from_response (some c) = none) ∧
    (∀ (c : StsCredentials) (ak : String), c.access_key_id = some ak →
      c.secret_access_key = none →
      credentials_from_response (some c) = none) ∧
    (∀ (c : StsCredentials) (ak sk : String), c.access_key_id = some ak →
      c.secret_access_key = some sk →
      credentials_from_response (some c) =
        some (Except.ok ⟨ak, sk, c.session_token, "AssumeRoleWithMFAToken"⟩)) := by
  refine ⟨rfl, ?_, ?_, ?_⟩ <;>
    · intros
      simp [credentials_from_response, *]

/-- Witness for claim C3 at concrete responses. -/
theorem claim_C3_witness :
    credentials_from_response (some ⟨none, none, none⟩) = none ∧
    credentials_from_response (some ⟨some "ak", none, none⟩) = none ∧
    credentials_from_response (some ⟨some "ak", some "sk", none⟩) =
      some (Except.ok ⟨"ak", "sk", none, "AssumeRoleWithMFAToken"⟩) :=
  ⟨claim_C3.2.1 ⟨none, none, none⟩ rfl,
   claim_C3.2.2.1 ⟨some "ak", none, none⟩ "ak" rfl rfl,
   claim_C3.2.2.2 ⟨some "ak", some "sk", none⟩ "ak" "sk" rfl rfl⟩

/-! ### Claim C1: behaviour on a cyclic chain -/

theorem cyclic_step_a (fuel : Nat) :
    get_source_profile cyclic_set (fuel + 1) "a" =
      get_source_profile cyclic_set fuel "b" := rfl

theorem cyclic_step_b (fuel : Nat) :
    get_source_profile cyclic_set (fuel + 1) "b" =
      get_source_profile cyclic_set fuel "a" := rfl

/-- Claim C1 evaluated on the code: on the two-cycle profile set the
source-profile recursion never returns within any number of steps, so
resolution neither produces the chain-resolution error the claim requires
nor any other result; on a chain whose named root is merely missing it
does stop, with the profile-or-source error, after finitely many steps.
The code therefore recurses without bound on a cycle instead of failing. -/
theorem claim_C1 :
    (∀ fuel : Nat,
      get_source_profile cyclic_set fuel "a" = none ∧
      get_source_profile cyclic_set fuel "b" = none ∧
      from_profile_set fuel "a" cyclic_set = none) ∧
    from_profile_set 2 "a" missing_root_set =
      some (Except.error "Failed to find a profile or source") := by
  constructor
  · intro fuel
    induction fuel with
    | zero => exact ⟨rfl, rfl, rfl⟩
    | succ n ih =>
      refine ⟨(cyclic_step_a n).trans ih.2.1, (cyclic_step_b n).trans ih.1, ?_⟩
      unfold from_profile_set
      rw [(cyclic_step_a n).trans ih.2.1]
  · rfl

/-! ### Claim C5: resolution of a well-formed chain -/

/-- Claim C5: whenever the named profile exists, the source-profile walk
resolves to a root within some bound, the named profile defines the role
and the MFA serial, and the two-element search over the named profile then
the root defines both keys, resolution succeeds with the role and serial
of the named profile and those keys; and the two-element search returns
the value of the first profile that defines the field. -/
theorem claim_C5 :
    (∀ (fuel : Nat) (name : String) (set : ProfileSet) (p root : Profile)
       (r m k s : String),
      set.get_profile name = some p →
      get_source_profile set fuel name = some (some root) →
      p.get "role_arn" = some r →
      p.get "mfa_serial" = some m →
      extract_field "aws_access_key_id" [p, root] = some k →
      extract_field "aws_secret_access_key" [p, root] = some s →
      from_profile_set fuel name set = some (Except.ok ⟨r, k, s, m⟩)) ∧
    (∀ (field : String) (p root : Profile),
      extract_field field [p, root] =
        ((p.get field).orElse fun _ => root.get field)) := by
  constructor
  · intro fuel name set p root r m k s hp hroot hr hm hk hs
    simp [from_profile_set, hroot, hp, hr, hk, hs, hm]
  · intro field p root
    cases h : p.get field <;> cases h2 : root.get field <;>
      simp [extract_field, h, h2, Option.orElse]

/-- Witness for claim C5 on a chain of length two whose root holds both
keys. -/
theorem claim_C5_witness :
    from_profile_set 2 "child" chain_set =
      some (Except.ok ⟨"arn:role", "AKID", "SECRET", "arn:mfa"⟩) ∧
    extract_field "f" [(⟨[("f", "v")]⟩ : Profile), (⟨[]⟩ : Profile)] =
      (((⟨[("f", "v")]⟩ : Profile).get "f").orElse fun _ =>
        (⟨[]⟩ : Profile).get "f") :=
  ⟨claim_C5.1 2 "child" chain_set
     ⟨[("source_profile", "parent"), ("role_arn", "arn:role"),
       ("mfa_serial", "arn:mfa")]⟩
     ⟨[("aws_access_key_id", "AKID"), ("aws_secret_access_key", "SECRET")]⟩
     "arn:role" "arn:mfa" "AKID" "SECRET" rfl rfl rfl rfl rfl rfl,
   claim_C5.2 "f" ⟨[("f", "v")]⟩ ⟨[]⟩⟩

/-! ### Claim C6: pagination accumulation and termination -/

/-- Claim C6: on the two-page directory the full fetch returns all four
parameters in arrival order with an absent cursor; in general one page
fetch issues one request at the current prefix and cursor, appends the
well-formed pairs of the response in order, replaces the cursor by the
token of the response, and the loop stops exactly when that token is
absent. -/
theorem claim_C6 :
    get_all_params_for_path two_page_net 2 "/path/to/the" =
      some (Except.ok ⟨"/path/to/the",
        [⟨"FIRST_PARAM", "a"⟩, ⟨"SECOND_PARAM", "b"⟩,
         ⟨"THIRD", "c"⟩, ⟨"FOURTH", "d"⟩], none⟩) ∧
    (∀ (net : Net) (bag : ParamBag) (resp : Page),
      net bag.pfx bag.next = Except.ok resp →
      get_params net bag = Except.ok (apply_page bag resp)) ∧
    (∀ (bag : ParamBag) (resp : Page)
       (ps : List (Option String × Option String)),
      resp.parameters = some ps →
      (apply_page bag resp).params = bag.params ++ page_params ps ∧
      (apply_page bag resp).next = resp.next_token) ∧
    (∀ (net : Net) (fuel : Nat) (bag bag2 : ParamBag),
      get_params net bag = Except.ok bag2 →
      (bag2.next = none → fetch_loop net (fuel + 1) bag = some (Except.ok bag2)) ∧
      (∀ c, bag2.next = some c →
        fetch_loop net (fuel + 1) bag = fetch_loop net fuel bag2)) := by
  refine ⟨rfl, ?_, ?_, ?_⟩
  · intro net bag resp h
    unfold get_params
    rw [h]
  · intro bag resp ps h
    unfold apply_page
    rw [h]
    exact ⟨rfl, rfl⟩
  · intro net fuel bag bag2 h
    constructor
    · intro hnone
      simp [fetch_loop, h, hnone]
    · intro c hc
      simp [fetch_loop, h, hc]

/-- Witness for claim C6: a directory that always answers without a cursor
is fetched in exactly one page. -/
theorem claim_C6_witness :
    get_params one_page_net (ParamBag.new "p") =
      Except.ok (apply_page (ParamBag.new "p") ⟨some [(some "k", some "v")], none⟩) ∧
    (apply_page (ParamBag.new "p") ⟨some [(some "k", some "v")], none⟩).params =
      (ParamBag.new "p").params ++ page_params [(some "k", some "v")] ∧
    fetch_loop one_page_net 1 (ParamBag.new "p") =
      some (Except.ok (apply_page (ParamBag.new "p")
        ⟨some [(some "k", some "v")], none⟩)) :=
  ⟨claim_C6.2.1 one_page_net (ParamBag.new "p") ⟨some [(some "k", some "v")], none⟩ rfl,
   (claim_C6.2.2.1 (ParamBag.new "p") ⟨some [(some "k", some "v")], none⟩
     [(some "k", some "v")] rfl).1,
   (claim_C6.2.2.2 one_page_net 0 (ParamBag.new "p")
     (apply_page (ParamBag.new "p") ⟨some [(some "k", some "v")], none⟩)
     (claim_C6.2.1 one_page_net (ParamBag.new "p")
       ⟨some [(some "k", some "v")], none⟩ rfl)).1 rfl⟩

/-! ### Claim C7: a failing page aborts the whole fetch -/

/-- Claim C7: when, after any number of pages that carry a cursor, the
next page request fails, the whole fetch stops at once with that error:
the responses after the failing one are never requested, the failing page
is not retried, no accumulated parameters are returned, and the read
branch of main flushes nothing to the formatter. -/
theorem claim_C7 :
    ∀ (pages : List Page) (fuel : Nat) (e : String)
      (rest : List (Except String Page)) (bag : ParamBag)
      (fmt : ParamBag → String),
      (∀ p ∈ pages, p.next_token.isSome = true) →
      pages.length < fuel →
      fetch_loop_seq fuel (pages.map Except.ok ++ Except.error e :: rest) bag =
        some (Except.error e, rest) ∧
      read_output (Except.error e) fmt = none := by
  intro pages
  induction pages with
  | nil =>
    intro fuel e rest bag fmt _ hfuel
    cases fuel with
    | zero => omega
    | succ n => exact ⟨rfl, rfl⟩
  | cons p ps ih =>
    intro fuel e rest bag fmt hcur hfuel
    cases fuel with
    | zero => simp at hfuel
    | succ n =>
      refine ⟨?_, rfl⟩
      obtain ⟨c, hc⟩ := Option.isSome_iff_exists.mp (hcur p (List.mem_cons_self p ps))
      have hstep :
          fetch_loop_seq (n + 1)
            ((p :: ps).map Except.ok ++ Except.error e :: rest) bag =
          fetch_loop_seq n (ps.map Except.ok ++ Except.error e :: rest)
            (apply_page bag p) := by
        show fetch_loop_seq (n + 1)
            (Except.ok p :: (ps.map Except.ok ++ Except.error e :: rest)) bag = _
        simp only [fetch_loop_seq, seq_get_params]
        rw [show (apply_page bag p).next = p.next_token from rfl, hc]
      rw [hstep]
      have hlen : ps.length < n := by
        simp only [List.length_cons] at hfuel
        omega
      exact (ih n e rest (apply_page bag p) fmt
        (fun q hq => hcur q (List.mem_cons_of_mem p hq)) hlen).1

/-- Witness for claim C7: a directory whose very first response is an
error makes the fetch return that error and the read emits nothing. -/
theorem claim_C7_witness :
    fetch_loop_seq 1 [Except.error "boom"] (ParamBag.new "p") =
      some (Except.error "boom", []) ∧
    read_output (Except.error "boom") (fun _ => "") = none := by
  have h := claim_C7 [] 1 "boom" [] (ParamBag.new "p") (fun _ => "")
    (by intro q hq; cases hq) (by decide)
  simpa using h

end Envfmt
